import Mathlib

/-!
# Verification of the INT20H sales-tax / CSV-import backend

Shallow embedding of the backend's core modules:

* `Tax` — the coordinate/bounding-box tax module (`tax.ts` variant bundled
  with `index.ts`): NY bounding box, the ordered `JURISDICTIONS` table,
  `getJurisdiction`, and `calculateTax`.
* `TaxGeo` — the geocoder-based tax module (`tax.ts` variant using the US
  Census lookup): the `NY_COUNTY_RATES` FIPS table, `FALLBACK_RATE`,
  `resolveJurisdiction`, and its `calculateTax`.
* `Orders` — the orders router (`orders.ts`) and database layer (`db.ts`):
  per-row validation, upsert-by-id persistence, the batched streaming import
  with cancellation/rollback, and manual order creation.

Numbers are embedded as exact rationals (`ℚ`); JavaScript's
`Math.round(x * 100) / 100` becomes `round2`.  The outcome of the external
(awaited) Census geocoder call is passed in as an explicit
`Option CensusResult` value; the per-row tax computation reached from the
orders router is likewise a function parameter `taxFn`, since its value is
irrelevant to the persistence/eventing behaviour being verified.
-/

/-- JavaScript's `Math.round(x * 100) / 100`: round to 2 decimal places,
ties away from `-∞` (i.e. `Math.round x = ⌊x + 1/2⌋`). -/
def round2 (x : ℚ) : ℚ := (⌊x * 100 + 1/2⌋ : ℚ) / 100

namespace Tax

/-- Constant `NY_BOUNDS` of the bounding-box tax module. -/
def NY_BOUNDS : ℚ × ℚ × ℚ × ℚ := (40.17, 45.016, -79.763, -71.48)

/-- Function `isInNewYork` of the bounding-box tax module. -/
def isInNewYork (lat lon : ℚ) : Bool :=
  decide (NY_BOUNDS.1 ≤ lat ∧ lat ≤ NY_BOUNDS.2.1 ∧
          NY_BOUNDS.2.2.1 ≤ lon ∧ lon ≤ NY_BOUNDS.2.2.2)

/-- The name and rate components returned by `getJurisdiction`
(the fields of `DEFAULT_JURISDICTION`). -/
structure RateInfo where
  name : String
  state_rate : ℚ
  county_rate : ℚ
  city_rate : ℚ
  special_rate : ℚ
  composite_tax_rate : ℚ
deriving DecidableEq, Repr

/-- An entry of the `JURISDICTIONS` table: rates plus a bounding box. -/
structure Jurisdiction where
  name : String
  state_rate : ℚ
  county_rate : ℚ
  city_rate : ℚ
  special_rate : ℚ
  composite_tax_rate : ℚ
  minLat : ℚ
  maxLat : ℚ
  minLon : ℚ
  maxLon : ℚ
deriving DecidableEq, Repr

/-- The rate part of a `JURISDICTIONS` entry. -/
def Jurisdiction.rate (j : Jurisdiction) : RateInfo :=
  { name := j.name, state_rate := j.state_rate, county_rate := j.county_rate,
    city_rate := j.city_rate, special_rate := j.special_rate,
    composite_tax_rate := j.composite_tax_rate }

/-- The bounding-box test of the `for` loop in `getJurisdiction`:
`lat >= j.minLat && lat <= j.maxLat && lon >= j.minLon && lon <= j.maxLon`. -/
def Jurisdiction.containsPoint (j : Jurisdiction) (lat lon : ℚ) : Bool :=
  decide (j.minLat ≤ lat ∧ lat ≤ j.maxLat ∧ j.minLon ≤ lon ∧ lon ≤ j.maxLon)

/-- The ordered `JURISDICTIONS` table of the bounding-box tax module. -/
def JURISDICTIONS : List Jurisdiction := [
  { name := "New York City (Manhattan)", state_rate := 0.04, county_rate := 0.04500, city_rate := 0.00375, special_rate := 0.00, composite_tax_rate := 0.08875, minLat := 40.700, maxLat := 40.882, minLon := -74.020, maxLon := -73.907 },
  { name := "New York City (Brooklyn)", state_rate := 0.04, county_rate := 0.04500, city_rate := 0.00375, special_rate := 0.00, composite_tax_rate := 0.08875, minLat := 40.551, maxLat := 40.740, minLon := -74.042, maxLon := -73.833 },
  { name := "New York City (Queens)", state_rate := 0.04, county_rate := 0.04500, city_rate := 0.00375, special_rate := 0.00, composite_tax_rate := 0.08875, minLat := 40.541, maxLat := 40.800, minLon := -73.962, maxLon := -73.700 },
  { name := "New York City (Bronx)", state_rate := 0.04, county_rate := 0.04500, city_rate := 0.00375, special_rate := 0.00, composite_tax_rate := 0.08875, minLat := 40.785, maxLat := 40.916, minLon := -73.933, maxLon := -73.765 },
  { name := "New York City (Staten Island)", state_rate := 0.04, county_rate := 0.04500, city_rate := 0.00375, special_rate := 0.00, composite_tax_rate := 0.08875, minLat := 40.477, maxLat := 40.651, minLon := -74.259, maxLon := -74.034 },
  { name := "Nassau County", state_rate := 0.04, county_rate := 0.04250, city_rate := 0.00375, special_rate := 0.00, composite_tax_rate := 0.08625, minLat := 40.540, maxLat := 40.760, minLon := -73.760, maxLon := -73.430 },
  { name := "Suffolk County", state_rate := 0.04, county_rate := 0.04250, city_rate := 0.00375, special_rate := 0.00, composite_tax_rate := 0.08625, minLat := 40.600, maxLat := 41.100, minLon := -73.430, maxLon := -71.800 },
  { name := "Westchester County", state_rate := 0.04, county_rate := 0.04000, city_rate := 0.00375, special_rate := 0.00, composite_tax_rate := 0.08375, minLat := 40.882, maxLat := 41.367, minLon := -74.020, maxLon := -73.483 },
  { name := "Rockland County", state_rate := 0.04, county_rate := 0.04000, city_rate := 0.00375, special_rate := 0.00, composite_tax_rate := 0.08375, minLat := 41.000, maxLat := 41.300, minLon := -74.230, maxLon := -73.893 },
  { name := "Orange County", state_rate := 0.04, county_rate := 0.03750, city_rate := 0.00, special_rate := 0.00, composite_tax_rate := 0.07750, minLat := 41.200, maxLat := 41.700, minLon := -74.760, maxLon := -74.000 },
  { name := "Dutchess County", state_rate := 0.04, county_rate := 0.03750, city_rate := 0.00, special_rate := 0.00, composite_tax_rate := 0.07750, minLat := 41.480, maxLat := 42.050, minLon := -73.940, maxLon := -73.480 },
  { name := "Ulster County", state_rate := 0.04, county_rate := 0.03750, city_rate := 0.00, special_rate := 0.00, composite_tax_rate := 0.07750, minLat := 41.600, maxLat := 42.230, minLon := -74.790, maxLon := -73.940 },
  { name := "Albany County", state_rate := 0.04, county_rate := 0.04000, city_rate := 0.00, special_rate := 0.00, composite_tax_rate := 0.08000, minLat := 42.350, maxLat := 42.830, minLon := -74.270, maxLon := -73.680 },
  { name := "Schenectady County", state_rate := 0.04, county_rate := 0.04000, city_rate := 0.00, special_rate := 0.00, composite_tax_rate := 0.08000, minLat := 42.680, maxLat := 43.000, minLon := -74.370, maxLon := -73.830 },
  { name := "Saratoga County", state_rate := 0.04, county_rate := 0.03000, city_rate := 0.00, special_rate := 0.00, composite_tax_rate := 0.07000, minLat := 42.850, maxLat := 43.550, minLon := -74.160, maxLon := -73.480 },
  { name := "Erie County", state_rate := 0.04, county_rate := 0.04750, city_rate := 0.00, special_rate := 0.00, composite_tax_rate := 0.08750, minLat := 42.440, maxLat := 43.090, minLon := -79.760, maxLon := -78.460 },
  { name := "Monroe County", state_rate := 0.04, county_rate := 0.04000, city_rate := 0.00, special_rate := 0.00, composite_tax_rate := 0.08000, minLat := 43.050, maxLat := 43.370, minLon := -77.990, maxLon := -77.370 },
  { name := "Onondaga County", state_rate := 0.04, county_rate := 0.04000, city_rate := 0.00, special_rate := 0.00, composite_tax_rate := 0.08000, minLat := 42.770, maxLat := 43.270, minLon := -76.470, maxLon := -75.890 },
  { name := "Niagara County", state_rate := 0.04, county_rate := 0.04750, city_rate := 0.00, special_rate := 0.00, composite_tax_rate := 0.08750, minLat := 43.090, maxLat := 43.380, minLon := -79.100, maxLon := -78.460 },
  { name := "Broome County", state_rate := 0.04, county_rate := 0.04000, city_rate := 0.00, special_rate := 0.00, composite_tax_rate := 0.08000, minLat := 42.000, maxLat := 42.500, minLon := -76.130, maxLon := -75.300 },
  { name := "Chemung County", state_rate := 0.04, county_rate := 0.04000, city_rate := 0.00, special_rate := 0.00, composite_tax_rate := 0.08000, minLat := 42.000, maxLat := 42.300, minLon := -77.000, maxLon := -76.530 },
  { name := "Chautauqua County", state_rate := 0.04, county_rate := 0.04000, city_rate := 0.00, special_rate := 0.00, composite_tax_rate := 0.08000, minLat := 42.000, maxLat := 42.570, minLon := -79.760, maxLon := -79.050 },
  { name := "Cattaraugus County", state_rate := 0.04, county_rate := 0.05000, city_rate := 0.00, special_rate := 0.00, composite_tax_rate := 0.09000, minLat := 42.000, maxLat := 42.530, minLon := -79.050, maxLon := -78.300 },
  { name := "Allegany County", state_rate := 0.04, county_rate := 0.04500, city_rate := 0.00, special_rate := 0.00, composite_tax_rate := 0.08500, minLat := 42.000, maxLat := 42.530, minLon := -78.300, maxLon := -77.720 },
  { name := "Steuben County", state_rate := 0.04, county_rate := 0.04000, city_rate := 0.00, special_rate := 0.00, composite_tax_rate := 0.08000, minLat := 42.000, maxLat := 42.660, minLon := -77.720, maxLon := -77.000 }]

/-- Constant `DEFAULT_JURISDICTION` of the bounding-box tax module. -/
def DEFAULT_JURISDICTION : RateInfo :=
  { name := "New York State", state_rate := 0.04, county_rate := 0.04,
    city_rate := 0.00, special_rate := 0.00, composite_tax_rate := 0.08 }

/-- The `for` loop of `getJurisdiction`: return the first entry of the list
whose bounding box contains the point, else `DEFAULT_JURISDICTION`. -/
def findFirst : List Jurisdiction → ℚ → ℚ → RateInfo
  | [], _, _ => DEFAULT_JURISDICTION
  | j :: rest, lat, lon =>
    if j.containsPoint lat lon then j.rate else findFirst rest lat lon

/-- Function `getJurisdiction` of the bounding-box tax module. -/
def getJurisdiction (lat lon : ℚ) : RateInfo := findFirst JURISDICTIONS lat lon

/-- The `TaxBreakdown` record of the bounding-box tax module. -/
structure TaxBreakdown where
  zip_code : Option String
  state : String
  tax_region : String
  state_rate : ℚ
  county_rate : ℚ
  city_rate : ℚ
  special_rate : ℚ
  composite_tax_rate : ℚ
  tax_amount : ℚ
  total_amount : ℚ
deriving DecidableEq, Repr

/-- Function `calculateTax` of the bounding-box tax module.  The optional `lat`/`lon`
pair selects a jurisdiction via `getJurisdiction`; otherwise
`DEFAULT_JURISDICTION` is used.  `tax_amount` is the rounded product; the
stored `total_amount` rounds `subtotal + tax_amount`, i.e. the sum with the
*already rounded* tax. -/
def calculateTax (subtotal : ℚ) (latlon : Option (ℚ × ℚ)) : TaxBreakdown :=
  let j := match latlon with
    | some (lat, lon) => getJurisdiction lat lon
    | none => DEFAULT_JURISDICTION
  let tax_amount := round2 (subtotal * j.composite_tax_rate)
  { zip_code := none, state := "NY", tax_region := j.name,
    state_rate := j.state_rate, county_rate := j.county_rate,
    city_rate := j.city_rate, special_rate := j.special_rate,
    composite_tax_rate := j.composite_tax_rate,
    tax_amount := tax_amount,
    total_amount := round2 (subtotal + tax_amount) }

end Tax

namespace TaxGeo

/-- Constant `NY_BOUNDS` of the geocoder tax module. -/
def NY_BOUNDS : ℚ × ℚ × ℚ × ℚ := (40.17, 45.02, -79.77, -71.48)

/-- Function `isInNewYork` of the geocoder tax module. -/
def isInNewYork (lat lon : ℚ) : Bool :=
  decide (NY_BOUNDS.1 ≤ lat ∧ lat ≤ NY_BOUNDS.2.1 ∧
          NY_BOUNDS.2.2.1 ≤ lon ∧ lon ≤ NY_BOUNDS.2.2.2)

/-- A `CountyRate` entry of the `NY_COUNTY_RATES` table. -/
structure CountyRate where
  name : String
  state_rate : ℚ
  county_rate : ℚ
  city_rate : ℚ
  special_rate : ℚ
  composite_tax_rate : ℚ
  jurisdictions : List String
deriving DecidableEq, Repr

/-- Table `NY_COUNTY_RATES`: county FIPS code → tax rates (the source's record
object embedded as an association list, in source order). -/
def NY_COUNTY_RATES : List (String × CountyRate) := [
  ("36005", { name := "New York City (Bronx)", state_rate := 0.04, county_rate := 0.045, city_rate := 0.00375, special_rate := 0, composite_tax_rate := 0.08875, jurisdictions := ["New York State", "New York City", "MCTD"] }),
  ("36047", { name := "New York City (Brooklyn)", state_rate := 0.04, county_rate := 0.045, city_rate := 0.00375, special_rate := 0, composite_tax_rate := 0.08875, jurisdictions := ["New York State", "New York City", "MCTD"] }),
  ("36061", { name := "New York City (Manhattan)", state_rate := 0.04, county_rate := 0.045, city_rate := 0.00375, special_rate := 0, composite_tax_rate := 0.08875, jurisdictions := ["New York State", "New York City", "MCTD"] }),
  ("36081", { name := "New York City (Queens)", state_rate := 0.04, county_rate := 0.045, city_rate := 0.00375, special_rate := 0, composite_tax_rate := 0.08875, jurisdictions := ["New York State", "New York City", "MCTD"] }),
  ("36085", { name := "New York City (Staten Island)", state_rate := 0.04, county_rate := 0.045, city_rate := 0.00375, special_rate := 0, composite_tax_rate := 0.08875, jurisdictions := ["New York State", "New York City", "MCTD"] }),
  ("36059", { name := "Nassau County", state_rate := 0.04, county_rate := 0.04250, city_rate := 0.00375, special_rate := 0, composite_tax_rate := 0.08625, jurisdictions := ["New York State", "Nassau County", "MCTD"] }),
  ("36103", { name := "Suffolk County", state_rate := 0.04, county_rate := 0.04250, city_rate := 0.00375, special_rate := 0, composite_tax_rate := 0.08625, jurisdictions := ["New York State", "Suffolk County", "MCTD"] }),
  ("36119", { name := "Westchester County", state_rate := 0.04, county_rate := 0.04000, city_rate := 0.00375, special_rate := 0, composite_tax_rate := 0.08375, jurisdictions := ["New York State", "Westchester County", "MCTD"] }),
  ("36087", { name := "Rockland County", state_rate := 0.04, county_rate := 0.04000, city_rate := 0.00375, special_rate := 0, composite_tax_rate := 0.08375, jurisdictions := ["New York State", "Rockland County", "MCTD"] }),
  ("36071", { name := "Orange County", state_rate := 0.04, county_rate := 0.03750, city_rate := 0.00375, special_rate := 0, composite_tax_rate := 0.08125, jurisdictions := ["New York State", "Orange County", "MCTD"] }),
  ("36027", { name := "Dutchess County", state_rate := 0.04, county_rate := 0.03750, city_rate := 0.00375, special_rate := 0, composite_tax_rate := 0.08125, jurisdictions := ["New York State", "Dutchess County", "MCTD"] }),
  ("36079", { name := "Putnam County", state_rate := 0.04, county_rate := 0.04000, city_rate := 0.00375, special_rate := 0, composite_tax_rate := 0.08375, jurisdictions := ["New York State", "Putnam County", "MCTD"] }),
  ("36111", { name := "Ulster County", state_rate := 0.04, county_rate := 0.03750, city_rate := 0, special_rate := 0, composite_tax_rate := 0.07750, jurisdictions := ["New York State", "Ulster County"] }),
  ("36039", { name := "Greene County", state_rate := 0.04, county_rate := 0.04000, city_rate := 0, special_rate := 0, composite_tax_rate := 0.08000, jurisdictions := ["New York State", "Greene County"] }),
  ("36021", { name := "Columbia County", state_rate := 0.04, county_rate := 0.04000, city_rate := 0, special_rate := 0, composite_tax_rate := 0.08000, jurisdictions := ["New York State", "Columbia County"] }),
  ("36113", { name := "Warren County", state_rate := 0.04, county_rate := 0.04000, city_rate := 0, special_rate := 0, composite_tax_rate := 0.08000, jurisdictions := ["New York State", "Warren County"] }),
  ("36115", { name := "Washington County", state_rate := 0.04, county_rate := 0.04000, city_rate := 0, special_rate := 0, composite_tax_rate := 0.08000, jurisdictions := ["New York State", "Washington County"] }),
  ("36091", { name := "Saratoga County", state_rate := 0.04, county_rate := 0.03000, city_rate := 0, special_rate := 0, composite_tax_rate := 0.07000, jurisdictions := ["New York State", "Saratoga County"] }),
  ("36001", { name := "Albany County", state_rate := 0.04, county_rate := 0.04000, city_rate := 0, special_rate := 0, composite_tax_rate := 0.08000, jurisdictions := ["New York State", "Albany County"] }),
  ("36093", { name := "Schenectady County", state_rate := 0.04, county_rate := 0.04000, city_rate := 0, special_rate := 0, composite_tax_rate := 0.08000, jurisdictions := ["New York State", "Schenectady County"] }),
  ("36083", { name := "Rensselaer County", state_rate := 0.04, county_rate := 0.04000, city_rate := 0, special_rate := 0, composite_tax_rate := 0.08000, jurisdictions := ["New York State", "Rensselaer County"] }),
  ("36035", { name := "Fulton County", state_rate := 0.04, county_rate := 0.04000, city_rate := 0, special_rate := 0, composite_tax_rate := 0.08000, jurisdictions := ["New York State", "Fulton County"] }),
  ("36057", { name := "Montgomery County", state_rate := 0.04, county_rate := 0.04500, city_rate := 0, special_rate := 0, composite_tax_rate := 0.08500, jurisdictions := ["New York State", "Montgomery County"] }),
  ("36077", { name := "Otsego County", state_rate := 0.04, county_rate := 0.04000, city_rate := 0, special_rate := 0, composite_tax_rate := 0.08000, jurisdictions := ["New York State", "Otsego County"] }),
  ("36019", { name := "Clinton County", state_rate := 0.04, county_rate := 0.04000, city_rate := 0, special_rate := 0, composite_tax_rate := 0.08000, jurisdictions := ["New York State", "Clinton County"] }),
  ("36031", { name := "Essex County", state_rate := 0.04, county_rate := 0.04000, city_rate := 0, special_rate := 0, composite_tax_rate := 0.08000, jurisdictions := ["New York State", "Essex County"] }),
  ("36033", { name := "Franklin County", state_rate := 0.04, county_rate := 0.04000, city_rate := 0, special_rate := 0, composite_tax_rate := 0.08000, jurisdictions := ["New York State", "Franklin County"] }),
  ("36045", { name := "Jefferson County", state_rate := 0.04, county_rate := 0.04000, city_rate := 0, special_rate := 0, composite_tax_rate := 0.08000, jurisdictions := ["New York State", "Jefferson County"] }),
  ("36049", { name := "Lewis County", state_rate := 0.04, county_rate := 0.04000, city_rate := 0, special_rate := 0, composite_tax_rate := 0.08000, jurisdictions := ["New York State", "Lewis County"] }),
  ("36089", { name := "St. Lawrence County", state_rate := 0.04, county_rate := 0.04000, city_rate := 0, special_rate := 0, composite_tax_rate := 0.08000, jurisdictions := ["New York State", "St. Lawrence County"] }),
  ("36041", { name := "Hamilton County", state_rate := 0.04, county_rate := 0.04000, city_rate := 0, special_rate := 0, composite_tax_rate := 0.08000, jurisdictions := ["New York State", "Hamilton County"] }),
  ("36043", { name := "Herkimer County", state_rate := 0.04, county_rate := 0.04250, city_rate := 0, special_rate := 0, composite_tax_rate := 0.08250, jurisdictions := ["New York State", "Herkimer County"] }),
  ("36065", { name := "Oneida County", state_rate := 0.04, county_rate := 0.04750, city_rate := 0, special_rate := 0, composite_tax_rate := 0.08750, jurisdictions := ["New York State", "Oneida County"] }),
  ("36067", { name := "Onondaga County", state_rate := 0.04, county_rate := 0.04000, city_rate := 0, special_rate := 0, composite_tax_rate := 0.08000, jurisdictions := ["New York State", "Onondaga County"] }),
  ("36053", { name := "Madison County", state_rate := 0.04, county_rate := 0.04000, city_rate := 0, special_rate := 0, composite_tax_rate := 0.08000, jurisdictions := ["New York State", "Madison County"] }),
  ("36055", { name := "Monroe County", state_rate := 0.04, county_rate := 0.04000, city_rate := 0, special_rate := 0, composite_tax_rate := 0.08000, jurisdictions := ["New York State", "Monroe County"] }),
  ("36011", { name := "Cayuga County", state_rate := 0.04, county_rate := 0.04000, city_rate := 0, special_rate := 0, composite_tax_rate := 0.08000, jurisdictions := ["New York State", "Cayuga County"] }),
  ("36099", { name := "Seneca County", state_rate := 0.04, county_rate := 0.04000, city_rate := 0, special_rate := 0, composite_tax_rate := 0.08000, jurisdictions := ["New York State", "Seneca County"] }),
  ("36109", { name := "Tompkins County", state_rate := 0.04, county_rate := 0.04000, city_rate := 0, special_rate := 0, composite_tax_rate := 0.08000, jurisdictions := ["New York State", "Tompkins County"] }),
  ("36107", { name := "Tioga County", state_rate := 0.04, county_rate := 0.04000, city_rate := 0, special_rate := 0, composite_tax_rate := 0.08000, jurisdictions := ["New York State", "Tioga County"] }),
  ("36007", { name := "Broome County", state_rate := 0.04, county_rate := 0.04000, city_rate := 0, special_rate := 0, composite_tax_rate := 0.08000, jurisdictions := ["New York State", "Broome County"] }),
  ("36023", { name := "Cortland County", state_rate := 0.04, county_rate := 0.04000, city_rate := 0, special_rate := 0, composite_tax_rate := 0.08000, jurisdictions := ["New York State", "Cortland County"] }),
  ("36095", { name := "Schoharie County", state_rate := 0.04, county_rate := 0.04000, city_rate := 0, special_rate := 0, composite_tax_rate := 0.08000, jurisdictions := ["New York State", "Schoharie County"] }),
  ("36097", { name := "Schuyler County", state_rate := 0.04, county_rate := 0.04000, city_rate := 0, special_rate := 0, composite_tax_rate := 0.08000, jurisdictions := ["New York State", "Schuyler County"] }),
  ("36101", { name := "Steuben County", state_rate := 0.04, county_rate := 0.04000, city_rate := 0, special_rate := 0, composite_tax_rate := 0.08000, jurisdictions := ["New York State", "Steuben County"] }),
  ("36009", { name := "Cattaraugus County", state_rate := 0.04, county_rate := 0.05000, city_rate := 0, special_rate := 0, composite_tax_rate := 0.09000, jurisdictions := ["New York State", "Cattaraugus County"] }),
  ("36003", { name := "Allegany County", state_rate := 0.04, county_rate := 0.04500, city_rate := 0, special_rate := 0, composite_tax_rate := 0.08500, jurisdictions := ["New York State", "Allegany County"] }),
  ("36051", { name := "Livingston County", state_rate := 0.04, county_rate := 0.04000, city_rate := 0, special_rate := 0, composite_tax_rate := 0.08000, jurisdictions := ["New York State", "Livingston County"] }),
  ("36069", { name := "Ontario County", state_rate := 0.04, county_rate := 0.04000, city_rate := 0, special_rate := 0, composite_tax_rate := 0.08000, jurisdictions := ["New York State", "Ontario County"] }),
  ("36117", { name := "Wayne County", state_rate := 0.04, county_rate := 0.04000, city_rate := 0, special_rate := 0, composite_tax_rate := 0.08000, jurisdictions := ["New York State", "Wayne County"] }),
  ("36123", { name := "Yates County", state_rate := 0.04, county_rate := 0.04000, city_rate := 0, special_rate := 0, composite_tax_rate := 0.08000, jurisdictions := ["New York State", "Yates County"] }),
  ("36029", { name := "Erie County", state_rate := 0.04, county_rate := 0.04750, city_rate := 0, special_rate := 0, composite_tax_rate := 0.08750, jurisdictions := ["New York State", "Erie County"] }),
  ("36063", { name := "Niagara County", state_rate := 0.04, county_rate := 0.04750, city_rate := 0, special_rate := 0, composite_tax_rate := 0.08750, jurisdictions := ["New York State", "Niagara County"] }),
  ("36015", { name := "Chemung County", state_rate := 0.04, county_rate := 0.04000, city_rate := 0, special_rate := 0, composite_tax_rate := 0.08000, jurisdictions := ["New York State", "Chemung County"] }),
  ("36013", { name := "Chautauqua County", state_rate := 0.04, county_rate := 0.04000, city_rate := 0, special_rate := 0, composite_tax_rate := 0.08000, jurisdictions := ["New York State", "Chautauqua County"] }),
  ("36017", { name := "Chenango County", state_rate := 0.04, county_rate := 0.04000, city_rate := 0, special_rate := 0, composite_tax_rate := 0.08000, jurisdictions := ["New York State", "Chenango County"] }),
  ("36025", { name := "Delaware County", state_rate := 0.04, county_rate := 0.04000, city_rate := 0, special_rate := 0, composite_tax_rate := 0.08000, jurisdictions := ["New York State", "Delaware County"] }),
  ("36037", { name := "Genesee County", state_rate := 0.04, county_rate := 0.04000, city_rate := 0, special_rate := 0, composite_tax_rate := 0.08000, jurisdictions := ["New York State", "Genesee County"] }),
  ("36073", { name := "Orleans County", state_rate := 0.04, county_rate := 0.04000, city_rate := 0, special_rate := 0, composite_tax_rate := 0.08000, jurisdictions := ["New York State", "Orleans County"] }),
  ("36075", { name := "Oswego County", state_rate := 0.04, county_rate := 0.04000, city_rate := 0, special_rate := 0, composite_tax_rate := 0.08000, jurisdictions := ["New York State", "Oswego County"] }),
  ("36105", { name := "Sullivan County", state_rate := 0.04, county_rate := 0.04000, city_rate := 0, special_rate := 0, composite_tax_rate := 0.08000, jurisdictions := ["New York State", "Sullivan County"] }),
  ("36121", { name := "Wyoming County", state_rate := 0.04, county_rate := 0.04000, city_rate := 0, special_rate := 0, composite_tax_rate := 0.08000, jurisdictions := ["New York State", "Wyoming County"] })]

/-- Constant `FALLBACK_RATE` of the geocoder tax module. -/
def FALLBACK_RATE : CountyRate :=
  { name := "New York State (fallback)", state_rate := 0.04, county_rate := 0.04,
    city_rate := 0, special_rate := 0, composite_tax_rate := 0.08,
    jurisdictions := ["New York State"] }

/-- Result of `resolveFipsFromCensus` (the awaited external Census geocoder
call): `none` models a network failure, timeout, non-OK response or empty
result; `some` carries the resolved county FIPS code. -/
structure CensusResult where
  countyFips : String
  zip : Option String
deriving DecidableEq, Repr

/-- Return type of `resolveJurisdiction` (TS `CountyRate & { county_fips }`). -/
structure ResolvedRate extends CountyRate where
  county_fips : Option String
deriving DecidableEq, Repr

/-- Function `resolveJurisdiction` of the geocoder tax module, with the outcome of the
external `resolveFipsFromCensus` call passed in explicitly.  A resolved FIPS
code present in `NY_COUNTY_RATES` returns that entry; an unmapped code or a
failed lookup falls back to `FALLBACK_RATE` with `county_fips := none`. -/
def resolveJurisdiction (census : Option CensusResult) : ResolvedRate :=
  match census with
  | some c =>
    match (NY_COUNTY_RATES.find? (fun p => p.1 == c.countyFips)).map (·.2) with
    | some rate => { toCountyRate := rate, county_fips := some c.countyFips }
    | none => { toCountyRate := FALLBACK_RATE, county_fips := none }
  | none => { toCountyRate := FALLBACK_RATE, county_fips := none }

/-- The `TaxBreakdown` record of the geocoder tax module. -/
structure TaxBreakdown where
  zip_code : Option String
  state : String
  tax_region : String
  county_fips : Option String
  state_rate : ℚ
  county_rate : ℚ
  city_rate : ℚ
  special_rate : ℚ
  composite_tax_rate : ℚ
  tax_amount : ℚ
  total_amount : ℚ
  jurisdictions : List String
deriving DecidableEq, Repr

/-- Function `calculateTax` of the geocoder tax module (the Census call's outcome is an
explicit argument). -/
def calculateTax (subtotal : ℚ) (census : Option CensusResult) : TaxBreakdown :=
  let jurisdiction := resolveJurisdiction census
  let tax_amount := round2 (subtotal * jurisdiction.composite_tax_rate)
  let total_amount := round2 (subtotal + tax_amount)
  { zip_code := none, state := "NY", tax_region := jurisdiction.name,
    county_fips := jurisdiction.county_fips,
    state_rate := jurisdiction.state_rate, county_rate := jurisdiction.county_rate,
    city_rate := jurisdiction.city_rate, special_rate := jurisdiction.special_rate,
    composite_tax_rate := jurisdiction.composite_tax_rate,
    tax_amount := tax_amount, total_amount := total_amount,
    jurisdictions := jurisdiction.jurisdictions }

end TaxGeo

namespace Orders

/-- The three per-row failure messages thrown inside the import handlers and
`POST /orders` ("Invalid numbers", "subtotal must be positive",
"Coordinates outside New York State"). -/
inductive RowError where
  | invalidNumber
  | invalidSubtotal
  | outOfRegion
deriving DecidableEq, Repr

/-- The per-row validation performed by both import handlers (and, after its
missing-field check, by `POST /orders`): `parseFloat` the three numeric
fields (`none` models `NaN`), then reject non-positive subtotals, then
reject coordinates outside the NY bounding box.  The checks run in exactly
this order, so the first failing check determines the reported error. -/
def validateRow (lat? lon? sub? : Option ℚ) : Except RowError (ℚ × ℚ × ℚ) :=
  match lat?, lon?, sub? with
  | some lat, some lon, some sub =>
    if sub ≤ 0 then .error .invalidSubtotal
    else if !(TaxGeo.isInNewYork lat lon) then .error .outOfRegion
    else .ok (lat, lon, sub)
  | _, _, _ => .error .invalidNumber

/-- A parsed CSV row: `rowId` is the raw `row.id` string, `csvId` is
`parseInt(row.id)`, the three `Option ℚ` fields are the `parseFloat` results
of `latitude` / `longitude` / `subtotal`, and `timestamp?` is the optional
timestamp column. -/
structure Row where
  rowId : String
  csvId : Int
  lat? : Option ℚ
  lon? : Option ℚ
  sub? : Option ℚ
  timestamp? : Option String
deriving DecidableEq, Repr

/-- The columns written for an order besides `id` and `import_session_id`. -/
structure OrderFields where
  latitude : ℚ
  longitude : ℚ
  subtotal : ℚ
  timestamp : String
  tax : TaxGeo.TaxBreakdown
deriving DecidableEq, Repr

/-- A persisted row of the `orders` table (the store is the table as an
ordered list of rows). -/
structure StoredOrder where
  id : Int
  fields : OrderFields
  import_session_id : Option String
deriving DecidableEq, Repr

/-- The per-row persistence step shared by both import handlers:
`SELECT id FROM orders WHERE id = ?` decides between
`UPDATE ... WHERE id = ?` (which does **not** set `import_session_id`) and
`INSERT` (which sets `import_session_id` to `tag` — the session id in
streaming mode, `null` in synchronous mode). -/
def upsertRow (store : List StoredOrder) (csvId : Int) (f : OrderFields)
    (tag : Option String) : List StoredOrder :=
  if store.any (fun o => decide (o.id = csvId)) then
    store.map (fun o => if o.id = csvId then { o with fields := f } else o)
  else
    store ++ [{ id := csvId, fields := f, import_session_id := tag }]

/-- The SSE events written by the streaming import handler. -/
inductive Event where
  | session (sessionId : String)
  | progress (processed : Nat) (id : Option Int)
  | done (success failed : Nat) (errors : List (String × RowError))
  | cancelled (rolledBack : Nat)
deriving DecidableEq, Repr

/-- The mutable state of one streaming-import invocation: the store plus the
handler's `processed` counter, `success` and `failed` arrays, and the events
written so far. -/
structure ImpState where
  store : List StoredOrder
  processed : Nat
  successes : List Int
  failures : List (String × RowError)
  events : List Event
deriving DecidableEq, Repr

/-- Processing of a single row inside a batch of the streaming import:
validate; on failure push onto `failed`; on success compute the tax
(`taxFn` is the awaited `calculateTax`, whose outcome never fails a row),
upsert, and push onto `success`; either way increment `processed` and emit a
progress event carrying the row's id on success and `null` on failure. -/
def stepRow (taxFn : ℚ → ℚ → ℚ → TaxGeo.TaxBreakdown) (nowTs : String)
    (sid : String) (st : ImpState) (row : Row) : ImpState :=
  match validateRow row.lat? row.lon? row.sub? with
  | .error e =>
    { st with
      failures := st.failures ++ [(row.rowId, e)],
      processed := st.processed + 1,
      events := st.events ++ [.progress (st.processed + 1) none] }
  | .ok (lat, lon, sub) =>
    let f : OrderFields :=
      { latitude := lat, longitude := lon, subtotal := sub,
        timestamp := row.timestamp?.getD nowTs, tax := taxFn lat lon sub }
    { st with
      store := upsertRow st.store row.csvId f (some sid),
      successes := st.successes ++ [row.csvId],
      processed := st.processed + 1,
      events := st.events ++ [.progress (st.processed + 1) (some row.csvId)] }

/-- The `rows.slice(i, i + BATCH_SIZE)` chunking with `BATCH_SIZE = 5`. -/
def chunks5 : List Row → List (List Row)
  | [] => []
  | [a] => [[a]]
  | [a, b] => [[a, b]]
  | [a, b, c] => [[a, b, c]]
  | [a, b, c, d] => [[a, b, c, d]]
  | a :: b :: c :: d :: e :: rest => [a, b, c, d, e] :: chunks5 rest

/-- The cooperative cancellation flag: it is polled once per loop iteration
(and once more after the loop); `cancelFrom = some c` means the flag reads
`true` from the `c`-th poll onwards, `none` means it is never set. -/
def checkCancel (cancelFrom : Option Nat) (i : Nat) : Bool :=
  match cancelFrom with
  | none => false
  | some c => decide (c ≤ i)

/-- The batch loop of the streaming import: before each batch the
cancellation flag is polled (`break` on `true`); after the last batch it is
polled once more.  Returns the final state and the flag's final reading. -/
def runBatches (taxFn : ℚ → ℚ → ℚ → TaxGeo.TaxBreakdown) (nowTs : String)
    (sid : String) (cancelFrom : Option Nat) :
    Nat → List (List Row) → ImpState → ImpState × Bool
  | i, [], st => (st, checkCancel cancelFrom i)
  | i, b :: rest, st =>
    if checkCancel cancelFrom i then (st, true)
    else runBatches taxFn nowTs sid cancelFrom (i + 1) rest
      (b.foldl (stepRow taxFn nowTs sid) st)

/-- The processing phase of `POST /orders/import/stream`: emit the session
event, then run the batch loop over the 5-row chunks. -/
def processPhase (taxFn : ℚ → ℚ → ℚ → TaxGeo.TaxBreakdown) (nowTs : String)
    (store₀ : List StoredOrder) (rows : List Row) (sid : String)
    (cancelFrom : Option Nat) : ImpState × Bool :=
  runBatches taxFn nowTs sid cancelFrom 0 (chunks5 rows)
    { store := store₀, processed := 0, successes := [], failures := [],
      events := [.session sid] }

/-- The whole `POST /orders/import/stream` handler: after the batch loop,
either roll back (count then delete every order whose `import_session_id`
equals this session's id, and emit `cancelled` with that count) or emit
`done` with the success/failure totals and the first 20 failures.  Returns
the final store and the full event list. -/
def runImport (taxFn : ℚ → ℚ → ℚ → TaxGeo.TaxBreakdown) (nowTs : String)
    (store₀ : List StoredOrder) (rows : List Row) (sid : String)
    (cancelFrom : Option Nat) : List StoredOrder × List Event :=
  let r := processPhase taxFn nowTs store₀ rows sid cancelFrom
  if r.2 then
    (r.1.store.filter (fun o => decide (¬ o.import_session_id = some sid)),
     r.1.events ++
       [.cancelled (r.1.store.countP (fun o => decide (o.import_session_id = some sid)))])
  else
    (r.1.store,
     r.1.events ++ [.done r.1.successes.length r.1.failures.length (r.1.failures.take 20)])

/-- Function `getMaxId` of the database layer: `SELECT MAX(id) FROM orders`, with
`NULL` (empty table) coalesced to `0`. -/
def getMaxId (store : List StoredOrder) : Int :=
  match store with
  | [] => 0
  | o :: rest => rest.foldl (fun m x => max m x.id) o.id

/-- The `POST /orders` handler (manual creation): validate the input, then
`INSERT` a new order with id `getMaxId() + 1` and a `null` session tag. -/
def postOrder (taxFn : ℚ → ℚ → ℚ → TaxGeo.TaxBreakdown) (nowTs : String)
    (store : List StoredOrder) (lat? lon? sub? : Option ℚ)
    (ts? : Option String) : Except RowError (List StoredOrder) :=
  match validateRow lat? lon? sub? with
  | .error e => .error e
  | .ok (lat, lon, sub) =>
    let f : OrderFields :=
      { latitude := lat, longitude := lon, subtotal := sub,
        timestamp := ts?.getD nowTs, tax := taxFn lat lon sub }
    .ok (store ++ [{ id := getMaxId store + 1, fields := f, import_session_id := none }])

end Orders

namespace Orders

/-- Whether a row passes validation (its `Promise` fulfills). -/
def rowOk (r : Row) : Bool :=
  match validateRow r.lat? r.lon? r.sub? with
  | .ok _ => true
  | .error _ => false

/-- The `id` carried by the row's progress event: the parsed id on success,
`null` on failure. -/
def progressId (r : Row) : Option Int :=
  if rowOk r then some r.csvId else none

/-- Specified from the protocol description: the progress events for a list
of rows, with `processed` counting up from `base + 1`. -/
def enumProgress (base : Nat) : List Row → List Event
  | [] => []
  | r :: rs => .progress (base + 1) (progressId r) :: enumProgress (base + 1) rs

/-- The failure records `(original_id, error)` of a row list, in order. -/
def failuresOf (rows : List Row) : List (String × RowError) :=
  rows.filterMap (fun r =>
    match validateRow r.lat? r.lon? r.sub? with
    | .error e => some (r.rowId, e)
    | .ok _ => none)

/-- The parsed ids of the rows that pass validation, in order. -/
def okIds (rows : List Row) : List Int :=
  (rows.filter rowOk).map (·.csvId)

/-- The effect of one row on the store alone (validation failure leaves the
store unchanged; success upserts). -/
def storeStep (taxFn : ℚ → ℚ → ℚ → TaxGeo.TaxBreakdown) (nowTs : String)
    (sid : String) (s : List StoredOrder) (row : Row) : List StoredOrder :=
  match validateRow row.lat? row.lon? row.sub? with
  | .error _ => s
  | .ok (lat, lon, sub) =>
    upsertRow s row.csvId
      { latitude := lat, longitude := lon, subtotal := sub,
        timestamp := row.timestamp?.getD nowTs, tax := taxFn lat lon sub }
      (some sid)

/-- Folding `stepRow` over a row list decomposes componentwise: the store is
folded by `storeStep`, `processed` grows by the number of rows, successes
and failures extend by the rows' outcomes, and the events extend by
the progress events numbered from the starting `processed` value. -/
theorem foldl_stepRow (taxFn : ℚ → ℚ → ℚ → TaxGeo.TaxBreakdown) (nowTs : String)
    (sid : String) (rows : List Row) (st : ImpState) :
    rows.foldl (stepRow taxFn nowTs sid) st =
      { store := rows.foldl (storeStep taxFn nowTs sid) st.store,
        processed := st.processed + rows.length,
        successes := st.successes ++ okIds rows,
        failures := st.failures ++ failuresOf rows,
        events := st.events ++ enumProgress st.processed rows } := by
  induction rows generalizing st with
  | nil => simp [okIds, failuresOf, enumProgress]
  | cons r rs ih =>
    rw [List.foldl_cons, List.foldl_cons, ih]
    cases h : validateRow r.lat? r.lon? r.sub? with
    | error e =>
      simp [stepRow, storeStep, h, okIds, failuresOf, enumProgress, rowOk, progressId]
      omega
    | ok v =>
      obtain ⟨lat, lon, sub⟩ := v
      simp [stepRow, storeStep, h, okIds, failuresOf, enumProgress, rowOk, progressId]
      omega

end Orders

namespace Orders

/-- With the cancellation flag never set, the batch loop runs every batch and
reports no cancellation. -/
theorem runBatches_none (taxFn : ℚ → ℚ → ℚ → TaxGeo.TaxBreakdown) (nowTs : String)
    (sid : String) (batches : List (List Row)) (i : Nat) (st : ImpState) :
    runBatches taxFn nowTs sid none i batches st =
      (batches.foldl (fun s b => b.foldl (stepRow taxFn nowTs sid) s) st, false) := by
  induction batches generalizing i st with
  | nil => simp [runBatches, checkCancel]
  | cons b rest ih => simp [runBatches, checkCancel, ih]

/-- The 5-row chunks of a row list flatten back to the list. -/
theorem chunks5_flatten : ∀ (l : List Row), (chunks5 l).flatten = l
  | [] => by simp [chunks5]
  | [_] => by simp [chunks5]
  | [_, _] => by simp [chunks5]
  | [_, _, _] => by simp [chunks5]
  | [_, _, _, _] => by simp [chunks5]
  | _ :: _ :: _ :: _ :: _ :: rest => by
    simp [chunks5, chunks5_flatten rest]

/-- Folding row-by-row over the flattened chunks equals folding batch-wise. -/
theorem foldl_chunks5 (f : ImpState → Row → ImpState) (rows : List Row) (st : ImpState) :
    (chunks5 rows).foldl (fun s b => b.foldl f s) st = rows.foldl f st := by
  rw [← List.foldl_flatten, chunks5_flatten rows]

/-- The number of failure records equals the number of failing rows. -/
theorem failuresOf_length (rows : List Row) :
    (failuresOf rows).length = rows.countP (fun r => !rowOk r) := by
  induction rows with
  | nil => simp [failuresOf]
  | cons r rs ih =>
    cases h : validateRow r.lat? r.lon? r.sub? with
    | error e => simp [failuresOf, List.countP_cons, rowOk, h] at ih ⊢; omega
    | ok v => simp [failuresOf, List.countP_cons, rowOk, h] at ih ⊢; exact ih

/-- The number of success records equals the number of passing rows. -/
theorem okIds_length (rows : List Row) :
    (okIds rows).length = rows.countP rowOk := by
  simp [okIds, List.countP_eq_length_filter]

/-- The `k`-th progress event of `enumProgress base rows` has `processed`
field `base + k + 1`. -/
theorem enumProgress_getD (rows : List Row) : ∀ (base k : Nat), k < rows.length →
    ∃ oid, (enumProgress base rows).getD k (.session "") =
      .progress (base + k + 1) oid := by
  induction rows with
  | nil => intro base k h; simp at h
  | cons r rs ih =>
    intro base k h
    match k with
    | 0 => exact ⟨progressId r, by simp [enumProgress]⟩
    | k + 1 =>
      obtain ⟨oid, ho⟩ := ih (base + 1) k (by simp at h; omega)
      refine ⟨oid, ?_⟩
      simpa [enumProgress, Nat.add_assoc, Nat.add_comm 1 k] using ho

end Orders

namespace Orders

/-- An upsert maps every record already in the store to a record with the
same `id` and the same `import_session_id` (the `UPDATE` branch does not set
that column; the `INSERT` branch leaves old rows untouched). -/
theorem upsertRow_preserve (store : List StoredOrder) (csvId : Int)
    (f : OrderFields) (tag : Option String) (o : StoredOrder) (ho : o ∈ store) :
    ∃ o' ∈ upsertRow store csvId f tag,
      o'.id = o.id ∧ o'.import_session_id = o.import_session_id := by
  unfold upsertRow
  by_cases h : store.any (fun o => decide (o.id = csvId)) = true
  · simp only [h, if_true]
    refine ⟨if o.id = csvId then { o with fields := f } else o,
      List.mem_map.mpr ⟨o, ho, rfl⟩, ?_⟩
    by_cases hid : o.id = csvId <;> simp [hid]
  · simp only [h]
    exact ⟨o, by simp [List.mem_append, ho], rfl, rfl⟩

/-- Lemma: `storeStep` preserves the id and session tag of every existing record. -/
theorem storeStep_preserve (taxFn : ℚ → ℚ → ℚ → TaxGeo.TaxBreakdown)
    (nowTs sid : String) (s : List StoredOrder) (row : Row) (o : StoredOrder)
    (ho : o ∈ s) :
    ∃ o' ∈ storeStep taxFn nowTs sid s row,
      o'.id = o.id ∧ o'.import_session_id = o.import_session_id := by
  unfold storeStep
  cases h : validateRow row.lat? row.lon? row.sub? with
  | error e => exact ⟨o, ho, rfl, rfl⟩
  | ok v => obtain ⟨lat, lon, sub⟩ := v; exact upsertRow_preserve _ _ _ _ o ho

/-- Folding `storeStep` over a row list preserves ids and session tags of
pre-existing records. -/
theorem foldl_storeStep_preserve (taxFn : ℚ → ℚ → ℚ → TaxGeo.TaxBreakdown)
    (nowTs sid : String) (rows : List Row) :
    ∀ (s : List StoredOrder) (o : StoredOrder), o ∈ s →
    ∃ o' ∈ rows.foldl (storeStep taxFn nowTs sid) s,
      o'.id = o.id ∧ o'.import_session_id = o.import_session_id := by
  induction rows with
  | nil => exact fun s o ho => ⟨o, ho, rfl, rfl⟩
  | cons r rs ih =>
    intro s o ho
    obtain ⟨o', ho', hid, htag⟩ := storeStep_preserve taxFn nowTs sid s r o ho
    obtain ⟨o'', ho'', hid', htag'⟩ := ih (storeStep taxFn nowTs sid s r) o' ho'
    exact ⟨o'', by simpa using ho'', hid'.trans hid, htag'.trans htag⟩

/-- The batch loop preserves ids and session tags of pre-existing records,
whatever the cancellation behaviour. -/
theorem runBatches_preserve (taxFn : ℚ → ℚ → ℚ → TaxGeo.TaxBreakdown)
    (nowTs sid : String) (cancelFrom : Option Nat) (batches : List (List Row)) :
    ∀ (i : Nat) (st : ImpState) (o : StoredOrder), o ∈ st.store →
    ∃ o' ∈ (runBatches taxFn nowTs sid cancelFrom i batches st).1.store,
      o'.id = o.id ∧ o'.import_session_id = o.import_session_id := by
  induction batches with
  | nil => exact fun i st o ho => ⟨o, by simpa [runBatches] using ho, rfl, rfl⟩
  | cons b rest ih =>
    intro i st o ho
    by_cases hc : checkCancel cancelFrom i = true
    · exact ⟨o, by simpa [runBatches, hc] using ho, rfl, rfl⟩
    · have hstore : (b.foldl (stepRow taxFn nowTs sid) st).store
          = b.foldl (storeStep taxFn nowTs sid) st.store := by
        rw [foldl_stepRow]
      obtain ⟨o', ho', hid, htag⟩ :=
        foldl_storeStep_preserve taxFn nowTs sid b st.store o ho
      obtain ⟨o'', ho'', hid', htag'⟩ :=
        ih (i + 1) (b.foldl (stepRow taxFn nowTs sid) st) o' (by rw [hstore]; exact ho')
      refine ⟨o'', ?_, hid'.trans hid, htag'.trans htag⟩
      simpa [runBatches, hc] using ho''

end Orders

/-- The `for` loop of `getJurisdiction` returns the first table entry whose
box contains the point, and the default when none does. -/
theorem Tax.findFirst_eq_find? (l : List Tax.Jurisdiction) (lat lon : ℚ) :
    Tax.findFirst l lat lon =
      ((l.find? (fun j => j.containsPoint lat lon)).map Tax.Jurisdiction.rate).getD
        Tax.DEFAULT_JURISDICTION := by
  induction l with
  | nil => simp [Tax.findFirst]
  | cons j rest ih =>
    by_cases h : j.containsPoint lat lon = true
    · simp [Tax.findFirst, List.find?_cons, h]
    · simp only [Bool.not_eq_true] at h
      simp [Tax.findFirst, List.find?_cons, h, ih]

/-- Claim C1: for every subtotal > 0 and every resolved jurisdiction (any
coordinate pair, or none), `calculateTax` returns `tax_amount` equal to
`subtotal × composite_tax_rate` rounded to 2 decimals, and `total_amount`
equal to `subtotal + tax_amount` (the already-rounded tax) rounded to 2
decimals. -/
theorem claim_C1 (subtotal : ℚ) (hs : 0 < subtotal) (latlon : Option (ℚ × ℚ)) :
    (Tax.calculateTax subtotal latlon).tax_amount
      = round2 (subtotal * (Tax.calculateTax subtotal latlon).composite_tax_rate)
    ∧ (Tax.calculateTax subtotal latlon).total_amount
      = round2 (subtotal + (Tax.calculateTax subtotal latlon).tax_amount) := by
  cases latlon with
  | none => exact ⟨rfl, rfl⟩
  | some p => obtain ⟨la, lo⟩ := p; exact ⟨rfl, rfl⟩

/-- Witness for C1 at subtotal 120 and the Manhattan coordinates. -/
theorem claim_C1_witness :
    (0:ℚ) < 120
    ∧ ((Tax.calculateTax 120 (some (40.7128, -74.0060))).tax_amount
        = round2 (120 * (Tax.calculateTax 120 (some (40.7128, -74.0060))).composite_tax_rate)
      ∧ (Tax.calculateTax 120 (some (40.7128, -74.0060))).total_amount
        = round2 (120 + (Tax.calculateTax 120 (some (40.7128, -74.0060))).tax_amount)) :=
  ⟨by norm_num, claim_C1 120 (by norm_num) (some (40.7128, -74.0060))⟩

/-- Claim C5: per-row validation applies its checks in a fixed order and reports
the first failure: unparseable numbers (modelled as `none`) beat the
subtotal check, which beats the region check; a fully parsed, positive,
in-region row passes. -/
theorem claim_C5 (lat? lon? sub? : Option ℚ) :
    ((lat? = none ∨ lon? = none ∨ sub? = none) →
      Orders.validateRow lat? lon? sub? = .error .invalidNumber)
    ∧ (∀ lat lon sub, lat? = some lat → lon? = some lon → sub? = some sub →
        sub ≤ 0 → Orders.validateRow lat? lon? sub? = .error .invalidSubtotal)
    ∧ (∀ lat lon sub, lat? = some lat → lon? = some lon → sub? = some sub →
        0 < sub → TaxGeo.isInNewYork lat lon = false →
        Orders.validateRow lat? lon? sub? = .error .outOfRegion)
    ∧ (∀ lat lon sub, lat? = some lat → lon? = some lon → sub? = some sub →
        0 < sub → TaxGeo.isInNewYork lat lon = true →
        Orders.validateRow lat? lon? sub? = .ok (lat, lon, sub)) := by
  refine ⟨?_, ?_, ?_, ?_⟩
  · intro h
    cases lat? <;> cases lon? <;> cases sub? <;>
      first
        | rfl
        | (rcases h with h | h | h <;> exact absurd h (Option.some_ne_none _))
  · rintro lat lon sub rfl rfl rfl hle
    simp [Orders.validateRow, if_pos hle]
  · rintro lat lon sub rfl rfl rfl hpos hout
    simp [Orders.validateRow, hout, not_le.mpr hpos]
  · rintro lat lon sub rfl rfl rfl hpos hin
    simp [Orders.validateRow, hin, not_le.mpr hpos]

/-- Witness for C5: a row that is unparseable (and also out of region)
reports the parse error; a parsed non-positive subtotal reports the
subtotal error; a positive subtotal out of region reports the region
error. -/
theorem claim_C5_witness :
    Orders.validateRow none (some 100) (some 5) = .error .invalidNumber
    ∧ Orders.validateRow (some 40.7128) (some (-74.0060)) (some (-5)) = .error .invalidSubtotal
    ∧ Orders.validateRow (some 0) (some 0) (some 5) = .error .outOfRegion :=
  ⟨(claim_C5 none (some 100) (some 5)).1 (Or.inl rfl),
   (claim_C5 (some 40.7128) (some (-74.0060)) (some (-5))).2.1 40.7128 (-74.0060) (-5)
     rfl rfl rfl (by norm_num),
   (claim_C5 (some 0) (some 0) (some 5)).2.2.1 0 0 5 rfl rfl rfl (by norm_num)
     (by norm_num [TaxGeo.isInNewYork, TaxGeo.NY_BOUNDS])⟩

/-- Claim C6: the bounding-box resolver returns the rate record of the first
jurisdiction in the fixed ordered `JURISDICTIONS` list whose box contains
the point, and the default statewide record (composite rate 0.08) when no
box contains it. -/
theorem claim_C6 (lat lon : ℚ) :
    Tax.getJurisdiction lat lon =
      ((Tax.JURISDICTIONS.find? (fun j => j.containsPoint lat lon)).map
        Tax.Jurisdiction.rate).getD Tax.DEFAULT_JURISDICTION
    ∧ Tax.DEFAULT_JURISDICTION.composite_tax_rate = 0.08 :=
  ⟨Tax.findFirst_eq_find? Tax.JURISDICTIONS lat lon, by norm_num [Tax.DEFAULT_JURISDICTION]⟩

/-- Claim C7 counterexample: at subtotal 0.024 with coordinates resolving to the
default statewide rate 0.08, the returned `total_amount` (0.02) is not the
rounding of the unrounded sum `subtotal + subtotal × rate` (0.03), because
the code recomputes the total from the already-rounded `tax_amount`. -/
theorem claim_C7_cex :
    ¬ ((Tax.calculateTax 0.024 (some (44.9, -72))).total_amount
      = round2 (0.024 + 0.024 * (Tax.calculateTax 0.024 (some (44.9, -72))).composite_tax_rate)) := by
  norm_num [Tax.calculateTax, Tax.getJurisdiction, Tax.JURISDICTIONS, Tax.findFirst,
    Tax.Jurisdiction.containsPoint, Tax.Jurisdiction.rate, Tax.DEFAULT_JURISDICTION, round2]

/-- Claim C7 amended: for every subtotal > 0 and every jurisdiction, the returned
`total_amount` equals `round2(subtotal + round2(subtotal × composite_tax_rate))`
— the total is recomputed from the already-rounded `tax_amount`, not rounded
from the unrounded sum. -/
theorem claim_C7_amended (subtotal : ℚ) (hs : 0 < subtotal) (latlon : Option (ℚ × ℚ)) :
    (Tax.calculateTax subtotal latlon).total_amount
      = round2 (subtotal +
          round2 (subtotal * (Tax.calculateTax subtotal latlon).composite_tax_rate)) := by
  cases latlon with
  | none => rfl
  | some p => obtain ⟨la, lo⟩ := p; rfl

/-- Witness for the amended C7 at subtotal 0.024 and the default-rate
coordinates used in the counterexample. -/
theorem claim_C7_amended_witness :
    (0:ℚ) < 0.024
    ∧ (Tax.calculateTax 0.024 (some (44.9, -72))).total_amount
      = round2 (0.024 +
          round2 (0.024 * (Tax.calculateTax 0.024 (some (44.9, -72))).composite_tax_rate)) :=
  ⟨by norm_num, claim_C7_amended 0.024 (by norm_num) (some (44.9, -72))⟩

/-- Claim C9: for coordinates (40.7128, -74.0060) and subtotal 120.00, the
resolver selects Manhattan and the calculator returns composite rate
0.08875, tax 10.65, total 130.65. -/
theorem claim_C9 :
    (Tax.getJurisdiction 40.7128 (-74.0060)).name = "New York City (Manhattan)"
    ∧ (Tax.calculateTax 120 (some (40.7128, -74.0060))).tax_region = "New York City (Manhattan)"
    ∧ (Tax.calculateTax 120 (some (40.7128, -74.0060))).composite_tax_rate = 0.08875
    ∧ (Tax.calculateTax 120 (some (40.7128, -74.0060))).tax_amount = 10.65
    ∧ (Tax.calculateTax 120 (some (40.7128, -74.0060))).total_amount = 130.65 := by
  refine ⟨?_, ?_, ?_, ?_, ?_⟩ <;>
    norm_num [Tax.calculateTax, Tax.getJurisdiction, Tax.JURISDICTIONS, Tax.findFirst,
      Tax.Jurisdiction.containsPoint, Tax.Jurisdiction.rate, round2]

/-- Lemma: every row either passes or fails validation, so the two counts
partition the row list. -/
theorem Orders.countP_rowOk_split (rows : List Orders.Row) :
    rows.countP Orders.rowOk + rows.countP (fun r => !Orders.rowOk r) = rows.length := by
  induction rows with
  | nil => simp
  | cons r rs ih =>
    by_cases h : Orders.rowOk r = true <;> simp [List.countP_cons, h] <;> omega

/-- Claim C3: for every parsed CSV of N rows processed in streaming mode
with no cancellation, the event stream is exactly one session event, then N
progress events whose `processed` values are 1..N in increasing order, then
one `done` event in which success + failed = N, success counts the rows that
passed validation, failed counts those that did not, and `errors` holds the
first min(failed, 20) failures. -/
theorem claim_C3 (taxFn : ℚ → ℚ → ℚ → TaxGeo.TaxBreakdown) (nowTs : String)
    (store₀ : List Orders.StoredOrder) (rows : List Orders.Row) (sid : String) :
    (Orders.runImport taxFn nowTs store₀ rows sid none).2 =
      [.session sid] ++ Orders.enumProgress 0 rows ++
        [.done (rows.countP Orders.rowOk) (rows.countP (fun r => !Orders.rowOk r))
          ((Orders.failuresOf rows).take 20)]
    ∧ rows.countP Orders.rowOk + rows.countP (fun r => !Orders.rowOk r) = rows.length
    ∧ (Orders.failuresOf rows).length = rows.countP (fun r => !Orders.rowOk r)
    ∧ ((Orders.failuresOf rows).take 20).length
        = min (rows.countP (fun r => !Orders.rowOk r)) 20
    ∧ (∀ k, k < rows.length →
        ∃ oid, (Orders.enumProgress 0 rows).getD k (.session "") = .progress (k + 1) oid) := by
  have h1 : Orders.processPhase taxFn nowTs store₀ rows sid none =
      (rows.foldl (Orders.stepRow taxFn nowTs sid)
        { store := store₀, processed := 0, successes := [], failures := [],
          events := [.session sid] }, false) := by
    unfold Orders.processPhase
    rw [Orders.runBatches_none, Orders.foldl_chunks5]
  refine ⟨?_, ?_, ?_, ?_, ?_⟩
  · unfold Orders.runImport
    rw [h1, Orders.foldl_stepRow]
    simp [Orders.okIds_length, Orders.failuresOf_length]
  · exact Orders.countP_rowOk_split rows
  · exact Orders.failuresOf_length rows
  · simp [List.length_take, Orders.failuresOf_length, Nat.min_comm]
  · intro k hk
    simpa using Orders.enumProgress_getD rows 0 k hk

/-- Claim C2: when a streaming import is cancelled, the rollback deletes
exactly the persisted records whose `import_session_id` equals the cancelled
session's id and reports their count in the `cancelled` event; every record
that existed before the import (necessarily tagged with some other session
id or none) keeps its id and prior `import_session_id` — updates do not
touch that column — and therefore survives the rollback. -/
theorem claim_C2 (taxFn : ℚ → ℚ → ℚ → TaxGeo.TaxBreakdown) (nowTs : String)
    (store₀ : List Orders.StoredOrder) (rows : List Orders.Row) (sid : String)
    (cancelFrom : Option Nat)
    (hc : (Orders.processPhase taxFn nowTs store₀ rows sid cancelFrom).2 = true)
    (hfresh : ∀ o ∈ store₀, o.import_session_id ≠ some sid) :
    (Orders.runImport taxFn nowTs store₀ rows sid cancelFrom).1
      = (Orders.processPhase taxFn nowTs store₀ rows sid cancelFrom).1.store.filter
          (fun o => decide (¬ o.import_session_id = some sid))
    ∧ (Orders.runImport taxFn nowTs store₀ rows sid cancelFrom).2
      = (Orders.processPhase taxFn nowTs store₀ rows sid cancelFrom).1.events ++
          [.cancelled ((Orders.processPhase taxFn nowTs store₀ rows sid cancelFrom).1.store.countP
            (fun o => decide (o.import_session_id = some sid)))]
    ∧ ∀ o ∈ store₀, ∃ o' ∈ (Orders.runImport taxFn nowTs store₀ rows sid cancelFrom).1,
        o'.id = o.id ∧ o'.import_session_id = o.import_session_id := by
  have hrun : Orders.runImport taxFn nowTs store₀ rows sid cancelFrom
      = ((Orders.processPhase taxFn nowTs store₀ rows sid cancelFrom).1.store.filter
          (fun o => decide (¬ o.import_session_id = some sid)),
        (Orders.processPhase taxFn nowTs store₀ rows sid cancelFrom).1.events ++
          [.cancelled ((Orders.processPhase taxFn nowTs store₀ rows sid cancelFrom).1.store.countP
            (fun o => decide (o.import_session_id = some sid)))]) := by
    simp only [Orders.runImport, hc, if_true]
  refine ⟨by rw [hrun], by rw [hrun], ?_⟩
  intro o ho
  obtain ⟨o', ho', hid, htag⟩ :=
    Orders.runBatches_preserve taxFn nowTs sid cancelFrom (Orders.chunks5 rows) 0
      { store := store₀, processed := 0, successes := [], failures := [],
        events := [.session sid] } o ho
  refine ⟨o', ?_, hid, htag⟩
  rw [hrun]
  simp only [List.mem_filter]
  exact ⟨ho', by simp [htag, hfresh o ho]⟩

/-- Lemma: an upsert into a store holding at most one record with the target
id leaves exactly one record with that id. -/
theorem Orders.upsertRow_countP (s : List Orders.StoredOrder) (i : Int)
    (f : Orders.OrderFields) (t : Option String)
    (h : s.countP (fun o => decide (o.id = i)) ≤ 1) :
    (Orders.upsertRow s i f t).countP (fun o => decide (o.id = i)) = 1 := by
  by_cases ha : s.any (fun o => decide (o.id = i)) = true
  · unfold Orders.upsertRow
    rw [if_pos ha, List.countP_map]
    have hcongr : s.countP
        ((fun o => decide (o.id = i)) ∘ (fun o => if o.id = i then { o with fields := f } else o))
        = s.countP (fun o => decide (o.id = i)) := by
      apply List.countP_congr
      intro o _
      by_cases hid : o.id = i <;> simp [hid]
    rw [hcongr]
    have hpos : 0 < s.countP (fun o => decide (o.id = i)) := by
      rw [List.countP_pos_iff]
      simpa [List.any_eq_true] using ha
    omega
  · unfold Orders.upsertRow
    rw [if_neg ha, List.countP_append]
    have h0 : s.countP (fun o => decide (o.id = i)) = 0 := by
      rw [List.countP_eq_zero]
      intro o ho hp
      exact ha (List.any_eq_true.mpr ⟨o, ho, hp⟩)
    simp [h0]

/-- When a record with the target id exists, an upsert updates in place and
does not change the number of stored records. -/
theorem Orders.upsertRow_length_of_any (s : List Orders.StoredOrder) (i : Int)
    (f : Orders.OrderFields) (t : Option String)
    (ha : (s.any (fun o => decide (o.id = i))) = true) :
    (Orders.upsertRow s i f t).length = s.length := by
  unfold Orders.upsertRow
  rw [if_pos ha, List.length_map]

/-- Claim C4: importing a row whose id already exists updates in place
rather than inserting: starting from any store with at most one record for
the id, after a first import there is exactly one record for that id, a
second import of the same id finds it (takes the update path), still leaves
exactly one record, and does not change the store's size.  The session tag
arguments cover both import modes (a session id in streaming mode, null in
synchronous mode). -/
theorem claim_C4 (store : List Orders.StoredOrder) (i : Int)
    (f₁ f₂ : Orders.OrderFields) (t₁ t₂ : Option String)
    (h : store.countP (fun o => decide (o.id = i)) ≤ 1) :
    (Orders.upsertRow store i f₁ t₁).countP (fun o => decide (o.id = i)) = 1
    ∧ ((Orders.upsertRow store i f₁ t₁).any (fun o => decide (o.id = i))) = true
    ∧ (Orders.upsertRow (Orders.upsertRow store i f₁ t₁) i f₂ t₂).countP
        (fun o => decide (o.id = i)) = 1
    ∧ (Orders.upsertRow (Orders.upsertRow store i f₁ t₁) i f₂ t₂).length
        = (Orders.upsertRow store i f₁ t₁).length := by
  have hcount := Orders.upsertRow_countP store i f₁ t₁ h
  have hany : ((Orders.upsertRow store i f₁ t₁).any (fun o => decide (o.id = i))) = true := by
    rw [List.any_eq_true]
    have : 0 < (Orders.upsertRow store i f₁ t₁).countP (fun o => decide (o.id = i)) := by
      omega
    simpa using List.countP_pos_iff.mp this
  refine ⟨hcount, hany, ?_, ?_⟩
  · exact Orders.upsertRow_countP _ i f₂ t₂ (by omega)
  · exact Orders.upsertRow_length_of_any _ i f₂ t₂ hany


/-- Claim C8: when the external geocoding lookup fails (modelled by a `none`
Census outcome) or resolves a county code absent from the static rate table,
`resolveJurisdiction` returns the fallback statewide record (composite rate
0.08, `county_fips` null) instead of raising an error, and `calculateTax`
still computes the tax for the row using the fallback rate. -/
theorem claim_C8 (census : Option TaxGeo.CensusResult)
    (h : census = none ∨ ∃ c, census = some c ∧
      TaxGeo.NY_COUNTY_RATES.find? (fun p => p.1 == c.countyFips) = none) :
    TaxGeo.resolveJurisdiction census =
      { toCountyRate := TaxGeo.FALLBACK_RATE, county_fips := none }
    ∧ (TaxGeo.resolveJurisdiction census).composite_tax_rate = 0.08
    ∧ (TaxGeo.resolveJurisdiction census).county_fips = none
    ∧ ∀ subtotal : ℚ,
        (TaxGeo.calculateTax subtotal census).composite_tax_rate = 0.08
        ∧ (TaxGeo.calculateTax subtotal census).tax_amount = round2 (subtotal * 0.08)
        ∧ (TaxGeo.calculateTax subtotal census).tax_region = "New York State (fallback)" := by
  have hres : TaxGeo.resolveJurisdiction census =
      { toCountyRate := TaxGeo.FALLBACK_RATE, county_fips := none } := by
    rcases h with h | ⟨c, hc, hfind⟩
    · rw [h]; rfl
    · rw [hc]
      simp [TaxGeo.resolveJurisdiction, hfind]
  refine ⟨hres, by rw [hres]; norm_num [TaxGeo.FALLBACK_RATE], by rw [hres],
    fun subtotal => ?_⟩
  refine ⟨?_, ?_, ?_⟩ <;>
    simp [TaxGeo.calculateTax, hres, TaxGeo.FALLBACK_RATE]

/-- Lemma: a left fold of `max` over the stored ids bounds the seed and
every element. -/
theorem Orders.foldl_max_bounds (l : List Orders.StoredOrder) :
    ∀ a : Int, a ≤ l.foldl (fun m x => max m x.id) a
      ∧ ∀ x ∈ l, x.id ≤ l.foldl (fun m x => max m x.id) a := by
  induction l with
  | nil => exact fun a => ⟨le_refl a, by simp⟩
  | cons y ys ih =>
    intro a
    have h1 := ih (max a y.id)
    refine ⟨le_trans (le_max_left a y.id) h1.1, ?_⟩
    intro x hx
    rcases List.mem_cons.mp hx with rfl | hx'
    · exact le_trans (le_max_right a x.id) h1.1
    · exact h1.2 x hx'

/-- Lemma: `getMaxId` bounds every id in the store. -/
theorem Orders.getMaxId_ge (store : List Orders.StoredOrder) :
    ∀ o ∈ store, o.id ≤ Orders.getMaxId store := by
  intro o ho
  cases store with
  | nil => simp at ho
  | cons y ys =>
    rcases List.mem_cons.mp ho with rfl | h'
    · exact (Orders.foldl_max_bounds ys o.id).1
    · exact (Orders.foldl_max_bounds ys y.id).2 o h'

/-- Claim C10: manual order creation (`POST /orders`), when it succeeds,
appends exactly one new record whose id is `getMaxId() + 1` and whose
session tag is null, leaving all pre-existing records unchanged; the new id
is strictly greater than every id present before the call, so no existing
order is updated or overwritten. -/
theorem claim_C10 (taxFn : ℚ → ℚ → ℚ → TaxGeo.TaxBreakdown) (nowTs : String)
    (store : List Orders.StoredOrder) (lat? lon? sub? : Option ℚ)
    (ts? : Option String) (store' : List Orders.StoredOrder)
    (h : Orders.postOrder taxFn nowTs store lat? lon? sub? ts? = .ok store') :
    (∃ f, store' = store ++
      [{ id := Orders.getMaxId store + 1, fields := f, import_session_id := none }])
    ∧ ∀ o ∈ store, o.id < Orders.getMaxId store + 1 := by
  constructor
  · unfold Orders.postOrder at h
    cases hv : Orders.validateRow lat? lon? sub? with
    | error e => rw [hv] at h; exact absurd h (by simp)
    | ok v =>
      obtain ⟨lat, lon, sub⟩ := v
      rw [hv] at h
      simp only [Except.ok.injEq] at h
      exact ⟨_, h.symm⟩
  · intro o ho
    exact lt_of_le_of_lt (Orders.getMaxId_ge store o ho) (by omega)

/-- A concrete tax breakdown used by the witnesses. -/
def sampleTax : TaxGeo.TaxBreakdown := TaxGeo.calculateTax 1 none

/-- A concrete stand-in for the awaited per-row tax computation. -/
def sampleTaxFn : ℚ → ℚ → ℚ → TaxGeo.TaxBreakdown := fun _ _ _ => sampleTax

/-- Concrete order fields used by the witnesses. -/
def sampleFields : Orders.OrderFields :=
  { latitude := 40.7128, longitude := -74.0060, subtotal := 120,
    timestamp := "t", tax := sampleTax }

/-- A concrete CSV row that passes validation (Manhattan, subtotal 120). -/
def rowOkSample : Orders.Row :=
  { rowId := "1", csvId := 1, lat? := some 40.7128, lon? := some (-74.0060),
    sub? := some 120, timestamp? := none }

/-- A concrete CSV row with an unparseable latitude. -/
def rowBadSample : Orders.Row :=
  { rowId := "2", csvId := 2, lat? := none, lon? := some 0,
    sub? := some 5, timestamp? := none }

/-- A concrete pre-existing order tagged by an older import session. -/
def oldOrder : Orders.StoredOrder :=
  { id := 5, fields := sampleFields, import_session_id := some "old" }

/-- Witness for C3: a two-row CSV (one passing, one failing row). -/
theorem claim_C3_witness :
    (Orders.runImport sampleTaxFn "now" [] [rowOkSample, rowBadSample] "sess" none).2 =
      [.session "sess"] ++ Orders.enumProgress 0 [rowOkSample, rowBadSample] ++
        [.done ([rowOkSample, rowBadSample].countP Orders.rowOk)
          ([rowOkSample, rowBadSample].countP (fun r => !Orders.rowOk r))
          ((Orders.failuresOf [rowOkSample, rowBadSample]).take 20)]
    ∧ ∃ oid, (Orders.enumProgress 0 [rowOkSample, rowBadSample]).getD 0 (.session "")
        = .progress 1 oid :=
  ⟨(claim_C3 sampleTaxFn "now" [] [rowOkSample, rowBadSample] "sess").1,
   (claim_C3 sampleTaxFn "now" [] [rowOkSample, rowBadSample] "sess").2.2.2.2 0 (by simp)⟩

/-- Witness for C2: a cancellation observed at the first poll, with one
pre-existing record tagged by an older session. -/
theorem claim_C2_witness :
    (Orders.runImport sampleTaxFn "now" [oldOrder] [rowBadSample] "sess" (some 0)).1
      = (Orders.processPhase sampleTaxFn "now" [oldOrder] [rowBadSample] "sess" (some 0)).1.store.filter
          (fun o => decide (¬ o.import_session_id = some "sess"))
    ∧ ∃ o' ∈ (Orders.runImport sampleTaxFn "now" [oldOrder] [rowBadSample] "sess" (some 0)).1,
        o'.id = oldOrder.id ∧ o'.import_session_id = oldOrder.import_session_id := by
  have h := claim_C2 sampleTaxFn "now" [oldOrder] [rowBadSample] "sess" (some 0) rfl
    (by intro o ho; rw [List.mem_singleton] at ho; subst ho; simp [oldOrder])
  exact ⟨h.1, h.2.2 oldOrder (by simp)⟩

/-- Witness for C4: importing id 7 twice into an empty store, first in
streaming mode and then in synchronous mode. -/
theorem claim_C4_witness :
    (Orders.upsertRow [] 7 sampleFields (some "s1")).countP (fun o => decide (o.id = 7)) = 1
    ∧ ((Orders.upsertRow [] 7 sampleFields (some "s1")).any (fun o => decide (o.id = 7))) = true
    ∧ (Orders.upsertRow (Orders.upsertRow [] 7 sampleFields (some "s1")) 7 sampleFields none).countP
        (fun o => decide (o.id = 7)) = 1
    ∧ (Orders.upsertRow (Orders.upsertRow [] 7 sampleFields (some "s1")) 7 sampleFields none).length
        = (Orders.upsertRow [] 7 sampleFields (some "s1")).length :=
  claim_C4 [] 7 sampleFields sampleFields (some "s1") none (by simp)

/-- Witness for C8: a resolved FIPS code "99999" absent from the rate
table. -/
theorem claim_C8_witness :
    TaxGeo.resolveJurisdiction (some { countyFips := "99999", zip := none }) =
      { toCountyRate := TaxGeo.FALLBACK_RATE, county_fips := none }
    ∧ (TaxGeo.calculateTax 120 (some { countyFips := "99999", zip := none })).composite_tax_rate = 0.08
    ∧ (TaxGeo.calculateTax 120 (some { countyFips := "99999", zip := none })).tax_region
        = "New York State (fallback)" := by
  have hfind : TaxGeo.NY_COUNTY_RATES.find?
      (fun p => p.1 == ({ countyFips := "99999", zip := none } : TaxGeo.CensusResult).countyFips) = none := by
    simp [TaxGeo.NY_COUNTY_RATES]
  have h := claim_C8 (some { countyFips := "99999", zip := none })
    (Or.inr ⟨{ countyFips := "99999", zip := none }, rfl, hfind⟩)
  exact ⟨h.1, (h.2.2.2 120).1, (h.2.2.2 120).2.2⟩

/-- A concrete stored order with id 3. -/
def baseOrder : Orders.StoredOrder :=
  { id := 3, fields := sampleFields, import_session_id := none }

/-- The order fields produced by the manual-creation witness. -/
def newOrderFields : Orders.OrderFields :=
  { latitude := 40.7128, longitude := -74.0060, subtotal := 120,
    timestamp := "now", tax := sampleTax }

/-- Witness for C10: creating an order manually with the store holding one
record of id 3. -/
theorem claim_C10_witness :
    (∃ f, ([baseOrder] ++
        [{ id := Orders.getMaxId [baseOrder] + 1, fields := newOrderFields,
           import_session_id := none }] : List Orders.StoredOrder)
      = [baseOrder] ++
        [{ id := Orders.getMaxId [baseOrder] + 1, fields := f, import_session_id := none }])
    ∧ baseOrder.id < Orders.getMaxId [baseOrder] + 1 := by
  have h := claim_C10 sampleTaxFn "now" [baseOrder]
    (some 40.7128) (some (-74.0060)) (some 120) none
    ([baseOrder] ++
      [{ id := Orders.getMaxId [baseOrder] + 1, fields := newOrderFields,
         import_session_id := none }])
    (by norm_num [Orders.postOrder, Orders.validateRow, TaxGeo.isInNewYork, TaxGeo.NY_BOUNDS,
          sampleTaxFn, newOrderFields])
  exact ⟨h.1, h.2 baseOrder (by simp)⟩
